import Mathlib

/-!
Verification development for ctrq (`src/ctrq.hpp`), a thin C++11 wrapper
around libctru's HTTP request facilities for the 3DS.

The embedding models the external libctru HTTP transport (`httpc*`
functions) as a pure oracle (`Transport`) and every ctrq operation as a
pure function that returns its value, the updated `response` state, and
the trace of transport calls it performed (`List TransportCall`).
Trace-based statements ("step N is never invoked", "the download
operation runs at most once") are statements about these traces.

Machine integers: libctru's `Result` is a signed 32-bit integer and
`R_FAILED(res)` is `res < 0`; results are modelled as `Int` (no arithmetic
is ever performed on them, only sign tests and equality, so no wraparound
can arise). Byte buffers (`std::vector<u8>`, `std::string` payloads) are
modelled as `List Nat`.
-/

namespace Ctrq

/-- The libctru `HTTPC_RequestMethod` enumeration. -/
inductive HTTPC_RequestMethod where
  | GET
  | POST
  | PUT
  | DELETE
  | HEAD
deriving DecidableEq

/-- The `ctrq::httpc_failure` enumeration from `src/ctrq.hpp`: names the
step at which a request failed, or `NONE`. -/
inductive httpc_failure where
  | NONE
  | OPEN_CONTEXT
  | DISABLE_SSL_VERIFY
  | SET_KEEP_ALIVE
  | SET_KEEP_ALIVE_HEADER
  | SET_USER_AGENT
  | SET_HEADER
  | BEGIN_REQUEST
  | GET_RESPONSE_STATUS_CODE
  | ADD_RAW_POST_DATA
  | ADD_ASCII_POST_PARAM
deriving DecidableEq

/-- One call into the libctru HTTP transport, as recorded in a trace. -/
inductive TransportCall where
  | openContext (method : HTTPC_RequestMethod) (url : String) (default_proxy : Int)
  | setSSLOpt
  | addRequestHeaderField (name value : String)
  | setKeepAlive (enabled : Bool)
  | beginRequest
  | getResponseStatusCode
  | addPostDataRaw (data : List Nat) (len : Nat)
  | addPostDataAscii (field value : String)
  | downloadData
  | getResponseHeader (name : String)
  | closeContext
deriving DecidableEq

/-- The 3DS `R_FAILED` macro: a libctru `Result` (signed 32-bit) denotes
failure exactly when it is negative. -/
def R_FAILED (r : Int) : Bool := r < 0

/-- libctru's `HTTPC_RESULTCODE_DOWNLOADPENDING`: the result code returned
by `httpcDownloadData` when more body data is pending. -/
def HTTPC_RESULTCODE_DOWNLOADPENDING : Int := 0x2b0d

/-- `CTRQ_USER_AGENT` build-time constant. -/
def CTRQ_USER_AGENT : String := "ctrq/0.0.1"

/-- `CTRQ_HEADER_BUFFER_SIZE` build-time constant (4 KiB). -/
def CTRQ_HEADER_BUFFER_SIZE : Nat := 4 * 1024

/-- `CTRQ_DOWNLOAD_BUFFER_SIZE` build-time constant (0x1000). -/
def CTRQ_DOWNLOAD_BUFFER_SIZE : Nat := 0x1000

/-- The external HTTP transport collaborator (libctru's `httpc*` API),
modelled as a pure oracle. Each field gives the `Result` (and out-values)
the transport returns for the corresponding call. The streaming download
behaviour is a finite script `download` of `(result, bytes written)`
responses consumed by successive `httpcDownloadData` calls; past the end
of the script the transport reports success (result 0) with no data. -/
structure Transport where
  openContext : HTTPC_RequestMethod → String → Int → Int
  setSSLOpt : Int
  addRequestHeaderField : String → String → Int
  setKeepAlive : Bool → Int
  beginRequest : Int
  getResponseStatusCode : Int × Nat
  addPostDataRaw : List Nat → Nat → Int
  addPostDataAscii : String → String → Int
  download : List (Int × List Nat)
  getResponseHeader : String → Int × List Nat

/-- The `ctrq::response` class state from `src/ctrq.hpp`. The opaque
`httpcContext` member lives on the transport side and is not part of the
modelled state; interactions with it appear in call traces. -/
structure response where
  http_context_closed : Bool := false
  body : List Nat := []
  body_populated : Bool := false
  body_string : List Nat := []
  body_string_populated : Bool := false
  status : Nat := 0
  result : Int := 0
  failure : httpc_failure := httpc_failure.NONE
deriving DecidableEq

/-- A freshly constructed `ctrq::response` (all member initializers). -/
def freshResponse : response := {}

/-- `ctrq::response::has_failed`: `R_FAILED(result)`. -/
def has_failed (res : response) : Bool := R_FAILED res.result

/-- Reading a NUL-terminated C string out of a zero-initialized buffer:
the bytes up to the first 0. -/
def cString (buf : List Nat) : List Nat := buf.takeWhile (fun b => b ≠ 0)

/-- `ctrq::response::get_header`: if the context is (believed) closed,
returns an empty string without touching the transport; otherwise queries
`httpcGetResponseHeader` into a zeroed `CTRQ_HEADER_BUFFER_SIZE` buffer
and returns the C string found there. The local `Result` shadows the
member, so `res.result` is unchanged. -/
def get_header (t : Transport) (res : response) (header : String) :
    List Nat × response × List TransportCall :=
  if res.http_context_closed then ([], res, [])
  else
    let r := t.getResponseHeader header
    (cString (r.2.take CTRQ_HEADER_BUFFER_SIZE), res,
      [TransportCall.getResponseHeader header])

/-- The `do { httpcDownloadData(...); append } while (result ==
HTTPC_RESULTCODE_DOWNLOADPENDING)` loop of `get_body`, run against the
transport's download script. Returns the final `Result`, the accumulated
body bytes, and the number of `httpcDownloadData` calls made. Each call
writes at most `CTRQ_DOWNLOAD_BUFFER_SIZE` bytes into the stack buffer. -/
def downloadLoop : List (Int × List Nat) → List Nat → Int × List Nat × Nat
  | [], acc => (0, acc, 1)
  | (r, bs) :: rest, acc =>
    if r = HTTPC_RESULTCODE_DOWNLOADPENDING then
      let k := downloadLoop rest (acc ++ bs.take CTRQ_DOWNLOAD_BUFFER_SIZE)
      (k.1, k.2.1, k.2.2 + 1)
    else (r, acc ++ bs.take CTRQ_DOWNLOAD_BUFFER_SIZE, 1)

/-- `ctrq::response::get_body`: returns the cached body if populated or if
the context is (believed) closed; otherwise runs the download loop,
assigning the member `result` on every iteration (so it ends up holding
the final chunk's result), appends every chunk to `body`, and marks the
body populated. -/
def get_body (t : Transport) (res : response) :
    List Nat × response × List TransportCall :=
  if res.body_populated || res.http_context_closed then (res.body, res, [])
  else
    let k := downloadLoop t.download res.body
    (k.2.1,
      { res with result := k.1, body := k.2.1, body_populated := true },
      List.replicate k.2.2 TransportCall.downloadData)

/-- `ctrq::response::get_body_string`: returns the cached string if the
context is (believed) closed or the string is flagged populated; otherwise
builds `std::string(body.data(), body.size())` from `get_body()`'s bytes
(length-preserving, embedded NULs included). Note the source never sets
`body_string_populated`. -/
def get_body_string (t : Transport) (res : response) :
    List Nat × response × List TransportCall :=
  if res.http_context_closed || res.body_string_populated then
    (res.body_string, res, [])
  else
    let k := get_body t res
    (k.1, { k.2.1 with body_string := k.1 }, k.2.2)

/-- `ctrq::response::close_context`: calls `httpcCloseContext` when
`http_context_closed` is false. Note the source never sets the flag. -/
def close_context (res : response) : response × List TransportCall :=
  if res.http_context_closed then (res, [])
  else (res, [TransportCall.closeContext])

/-- `ctrq::response::~response`: the destructor calls `close_context`. -/
def destruct_response (res : response) : response × List TransportCall :=
  close_context res

/-- `ctrq::add_headers` loop body: applies each `(name, value)` entry via
`httpcAddRequestHeaderField`, returning the first failing `Result` (or 0)
and the calls made. -/
def add_headers_go (t : Transport) :
    List (String × String) → Int × List TransportCall
  | [] => (0, [])
  | (k, v) :: rest =>
    let r := t.addRequestHeaderField k v
    if R_FAILED r then (r, [TransportCall.addRequestHeaderField k v])
    else
      let w := add_headers_go t rest
      (w.1, TransportCall.addRequestHeaderField k v :: w.2)

/-- `ctrq::add_headers`: returns 0 immediately on a null header map. A
`std::map` iterates its entries in key order; the list argument is the
map's entry sequence in that iteration order. -/
def add_headers (t : Transport) (headers : Option (List (String × String))) :
    Int × List TransportCall :=
  match headers with
  | none => (0, [])
  | some hs => add_headers_go t hs

/-- `ctrq::setup_context`: the ordered preparation sequence written with
the `_CTRQ_FALSE_IF_FAILED` macro. Note the source passes
`HTTPC_METHOD_GET` to `httpcOpenContext` regardless of the `method`
parameter. Returns the success flag, the updated response and the trace. -/
def setup_context (t : Transport) (res : response) (url : String)
    (method : HTTPC_RequestMethod)
    (headers : Option (List (String × String))) (default_proxy : Int)
    (disable_ssl_verification : Bool) (keep_alive : Bool) :
    Bool × response × List TransportCall :=
  let r1 := t.openContext HTTPC_RequestMethod.GET url default_proxy
  let tr1 := [TransportCall.openContext HTTPC_RequestMethod.GET url default_proxy]
  if R_FAILED r1 then
    (false, { res with failure := httpc_failure.OPEN_CONTEXT, result := r1 }, tr1)
  else
  let tr2 := tr1 ++ (if disable_ssl_verification then [TransportCall.setSSLOpt] else [])
  if disable_ssl_verification && R_FAILED t.setSSLOpt then
    (false,
      { res with failure := httpc_failure.DISABLE_SSL_VERIFY, result := t.setSSLOpt },
      tr2)
  else
  let rUA := t.addRequestHeaderField "User-Agent" CTRQ_USER_AGENT
  let tr3 := tr2 ++ [TransportCall.addRequestHeaderField "User-Agent" CTRQ_USER_AGENT]
  if R_FAILED rUA then
    (false, { res with failure := httpc_failure.SET_USER_AGENT, result := rUA }, tr3)
  else
  let hr := add_headers t headers
  let tr4 := tr3 ++ hr.2
  if R_FAILED hr.1 then
    (false, { res with failure := httpc_failure.SET_HEADER, result := hr.1 }, tr4)
  else
  let rKA := t.setKeepAlive keep_alive
  let tr5 := tr4 ++ [TransportCall.setKeepAlive keep_alive]
  if R_FAILED rKA then
    (false, { res with failure := httpc_failure.SET_KEEP_ALIVE, result := rKA }, tr5)
  else
  let tr6 := tr5 ++ (if keep_alive then
    [TransportCall.addRequestHeaderField "Connection" "Keep-Alive"] else [])
  if keep_alive && R_FAILED (t.addRequestHeaderField "Connection" "Keep-Alive") then
    (false,
      { res with
        failure := httpc_failure.SET_KEEP_ALIVE_HEADER
        result := t.addRequestHeaderField "Connection" "Keep-Alive" },
      tr6)
  else
  (true, res, tr6)

/-- `ctrq::perform_request`: `httpcBeginRequest` then
`httpcGetResponseStatusCode` (which writes `res.status` on success), each
guarded by the `_CTRQ_FALSE_IF_FAILED` macro. -/
def perform_request (t : Transport) (res : response) :
    Bool × response × List TransportCall :=
  let r1 := t.beginRequest
  if R_FAILED r1 then
    (false, { res with failure := httpc_failure.BEGIN_REQUEST, result := r1 },
      [TransportCall.beginRequest])
  else
  let r2 := t.getResponseStatusCode
  if R_FAILED r2.1 then
    (false,
      { res with failure := httpc_failure.GET_RESPONSE_STATUS_CODE, result := r2.1 },
      [TransportCall.beginRequest, TransportCall.getResponseStatusCode])
  else
  (true, { res with status := r2.2 },
    [TransportCall.beginRequest, TransportCall.getResponseStatusCode])

/-- `ctrq::add_raw_post_data`: `httpcAddPostDataRaw`; note
`res.result` is assigned unconditionally, and `failure` is set only on
failure. -/
def add_raw_post_data (t : Transport) (res : response) (data : List Nat)
    (len : Nat) : Bool × response × List TransportCall :=
  let r := t.addPostDataRaw data len
  if R_FAILED r then
    (false, { res with result := r, failure := httpc_failure.ADD_RAW_POST_DATA },
      [TransportCall.addPostDataRaw data len])
  else
    (true, { res with result := r }, [TransportCall.addPostDataRaw data len])

/-- `ctrq::add_ascii_post_param`: `httpcAddPostDataAscii`; `res.result` is
assigned unconditionally, `failure` only on failure. -/
def add_ascii_post_param (t : Transport) (res : response)
    (field value : String) : Bool × response × List TransportCall :=
  let r := t.addPostDataAscii field value
  if R_FAILED r then
    (false,
      { res with result := r, failure := httpc_failure.ADD_ASCII_POST_PARAM },
      [TransportCall.addPostDataAscii field value])
  else
    (true, { res with result := r },
      [TransportCall.addPostDataAscii field value])

/-- `ctrq::add_ascii_post_params`: attaches each `(field, value)` pair in
the map's iteration order, aborting at the first failure. -/
def add_ascii_post_params (t : Transport) (res : response) :
    List (String × String) → Bool × response × List TransportCall
  | [] => (true, res, [])
  | (k, v) :: rest =>
    let s := add_ascii_post_param t res k v
    if s.1 then
      let s2 := add_ascii_post_params t s.2.1 rest
      (s2.1, s2.2.1, s.2.2 ++ s2.2.2)
    else (false, s.2.1, s.2.2)

/-- `ctrq::get`: GET orchestrator. -/
def get (t : Transport) (url : String)
    (headers : Option (List (String × String))) (default_proxy : Int)
    (disable_ssl_verification : Bool) (keep_alive : Bool) :
    response × List TransportCall :=
  let s := setup_context t freshResponse url HTTPC_RequestMethod.GET headers
    default_proxy disable_ssl_verification keep_alive
  if !s.1 then (s.2.1, s.2.2)
  else
    let p := perform_request t s.2.1
    (p.2.1, s.2.2 ++ p.2.2)

/-- `ctrq::post` (raw-body overload; the vector and string overloads both
reduce to it): POST orchestrator with a raw binary body. -/
def post_raw (t : Transport) (url : String) (body : List Nat) (len : Nat)
    (headers : Option (List (String × String))) (default_proxy : Int)
    (disable_ssl_verification : Bool) (keep_alive : Bool) :
    response × List TransportCall :=
  let s := setup_context t freshResponse url HTTPC_RequestMethod.POST headers
    default_proxy disable_ssl_verification keep_alive
  if !s.1 then (s.2.1, s.2.2)
  else
  let a := add_raw_post_data t s.2.1 body len
  if !a.1 then (a.2.1, s.2.2 ++ a.2.2)
  else
  let p := perform_request t a.2.1
  (p.2.1, s.2.2 ++ a.2.2 ++ p.2.2)

/-- `ctrq::post` (form-parameter overload): POST orchestrator with an
ASCII key/value parameter map. -/
def post_params (t : Transport) (url : String)
    (params : List (String × String))
    (headers : Option (List (String × String))) (default_proxy : Int)
    (disable_ssl_verification : Bool) (keep_alive : Bool) :
    response × List TransportCall :=
  let s := setup_context t freshResponse url HTTPC_RequestMethod.POST headers
    default_proxy disable_ssl_verification keep_alive
  if !s.1 then (s.2.1, s.2.2)
  else
  let a := add_ascii_post_params t s.2.1 params
  if !a.1 then (a.2.1, s.2.2 ++ a.2.2)
  else
  let p := perform_request t a.2.1
  (p.2.1, s.2.2 ++ a.2.2 ++ p.2.2)

/-- `ctrq::put` (raw-body overload). -/
def put_raw (t : Transport) (url : String) (body : List Nat) (len : Nat)
    (headers : Option (List (String × String))) (default_proxy : Int)
    (disable_ssl_verification : Bool) (keep_alive : Bool) :
    response × List TransportCall :=
  let s := setup_context t freshResponse url HTTPC_RequestMethod.PUT headers
    default_proxy disable_ssl_verification keep_alive
  if !s.1 then (s.2.1, s.2.2)
  else
  let a := add_raw_post_data t s.2.1 body len
  if !a.1 then (a.2.1, s.2.2 ++ a.2.2)
  else
  let p := perform_request t a.2.1
  (p.2.1, s.2.2 ++ a.2.2 ++ p.2.2)

/-- `ctrq::put` (form-parameter overload). -/
def put_params (t : Transport) (url : String)
    (params : List (String × String))
    (headers : Option (List (String × String))) (default_proxy : Int)
    (disable_ssl_verification : Bool) (keep_alive : Bool) :
    response × List TransportCall :=
  let s := setup_context t freshResponse url HTTPC_RequestMethod.PUT headers
    default_proxy disable_ssl_verification keep_alive
  if !s.1 then (s.2.1, s.2.2)
  else
  let a := add_ascii_post_params t s.2.1 params
  if !a.1 then (a.2.1, s.2.2 ++ a.2.2)
  else
  let p := perform_request t a.2.1
  (p.2.1, s.2.2 ++ a.2.2 ++ p.2.2)

/-- `ctrq::deleet`: DELETE orchestrator. -/
def deleet (t : Transport) (url : String)
    (headers : Option (List (String × String))) (default_proxy : Int)
    (disable_ssl_verification : Bool) (keep_alive : Bool) :
    response × List TransportCall :=
  let s := setup_context t freshResponse url HTTPC_RequestMethod.DELETE headers
    default_proxy disable_ssl_verification keep_alive
  if !s.1 then (s.2.1, s.2.2)
  else
    let p := perform_request t s.2.1
    (p.2.1, s.2.2 ++ p.2.2)

/-! Spec-side semantics of the Context Preparer: the fixed ordered list of
named steps (spec section 4.1 and section 9's design note), executed by a
driver that stops at the first failure. `setup_context` is proved equal to
this driver run on `setupSteps`. -/

/-- One preparation step: its failure tag, the transport call it makes,
and the `Result` the transport returns for it. -/
abbrev SetupStep : Type := httpc_failure × TransportCall × Int

/-- Placeholder step used by the total indexing function `List.getD`. -/
def dummyStep : SetupStep := (httpc_failure.NONE, TransportCall.closeContext, 0)

/-- The first-failure driver: runs the steps in order; at the first step
whose result is a failure it records `(failure, result)` on the response
and stops, returning the calls made so far; otherwise the response passes
through unchanged. -/
def runSteps (res : response) : List SetupStep → Bool × response × List TransportCall
  | [] => (true, res, [])
  | s :: rest =>
    if R_FAILED s.2.2 then
      (false, { res with failure := s.1, result := s.2.2 }, [s.2.1])
    else
      let k := runSteps res rest
      (k.1, k.2.1, s.2.1 :: k.2.2)

/-- The fixed order of preparation steps of the Context Preparer, as the
source executes them: context-open (note: always with `HTTPC_METHOD_GET`),
disable-TLS-verify if requested, set-user-agent, one set-custom-header
step per caller header, set-keep-alive, and set-keep-alive-header if
keep-alive is enabled. -/
def setupSteps (t : Transport) (url : String)
    (headers : Option (List (String × String))) (default_proxy : Int)
    (disable_ssl_verification : Bool) (keep_alive : Bool) : List SetupStep :=
  [(httpc_failure.OPEN_CONTEXT,
    TransportCall.openContext HTTPC_RequestMethod.GET url default_proxy,
    t.openContext HTTPC_RequestMethod.GET url default_proxy)]
  ++ (if disable_ssl_verification then
      [(httpc_failure.DISABLE_SSL_VERIFY, TransportCall.setSSLOpt, t.setSSLOpt)]
    else [])
  ++ [(httpc_failure.SET_USER_AGENT,
      TransportCall.addRequestHeaderField "User-Agent" CTRQ_USER_AGENT,
      t.addRequestHeaderField "User-Agent" CTRQ_USER_AGENT)]
  ++ (headers.getD []).map (fun kv =>
      (httpc_failure.SET_HEADER,
        TransportCall.addRequestHeaderField kv.1 kv.2,
        t.addRequestHeaderField kv.1 kv.2))
  ++ [(httpc_failure.SET_KEEP_ALIVE, TransportCall.setKeepAlive keep_alive,
      t.setKeepAlive keep_alive)]
  ++ (if keep_alive then
      [(httpc_failure.SET_KEEP_ALIVE_HEADER,
        TransportCall.addRequestHeaderField "Connection" "Keep-Alive",
        t.addRequestHeaderField "Connection" "Keep-Alive")]
    else [])

theorem runSteps_append (res : response) (a b : List SetupStep) :
    runSteps res (a ++ b) =
      if (runSteps res a).1 then
        ((runSteps res b).1, (runSteps res b).2.1,
          (runSteps res a).2.2 ++ (runSteps res b).2.2)
      else runSteps res a := by
  induction a with
  | nil => simp [runSteps]
  | cons s rest ih =>
    by_cases h : R_FAILED s.2.2
    · simp [runSteps, h]
    · simp [runSteps, h, ih]
      by_cases h2 : (runSteps res rest).1 <;> simp [h2]

theorem runSteps_headers (t : Transport) (res : response)
    (hs : List (String × String)) :
    runSteps res (hs.map (fun kv =>
        (httpc_failure.SET_HEADER,
          TransportCall.addRequestHeaderField kv.1 kv.2,
          t.addRequestHeaderField kv.1 kv.2))) =
      if R_FAILED (add_headers_go t hs).1 then
        (false,
          { res with
            failure := httpc_failure.SET_HEADER
            result := (add_headers_go t hs).1 },
          (add_headers_go t hs).2)
      else (true, res, (add_headers_go t hs).2) := by
  induction hs with
  | nil => simp [runSteps, add_headers_go, R_FAILED]
  | cons kv rest ih =>
    by_cases h : R_FAILED (t.addRequestHeaderField kv.1 kv.2)
    · simp [runSteps, add_headers_go, h]
    · simp only [List.map_cons, runSteps, add_headers_go, h, if_neg, Bool.false_eq_true,
        not_false_iff, if_false, ih]
      by_cases h2 : R_FAILED (add_headers_go t rest).1 <;> simp [h2]

/-- The source's `setup_context` is exactly the first-failure driver run
over the fixed step list. -/
theorem setup_context_eq_runSteps (t : Transport) (res : response)
    (url : String) (method : HTTPC_RequestMethod)
    (headers : Option (List (String × String))) (default_proxy : Int)
    (ssl ka : Bool) :
    setup_context t res url method headers default_proxy ssl ka =
      runSteps res (setupSteps t url headers default_proxy ssl ka) := by
  have hadd : add_headers t headers = add_headers_go t (headers.getD []) := by
    cases headers <;> simp [add_headers, add_headers_go]
  simp only [setup_context, setupSteps, runSteps_append, runSteps_headers, hadd]
  cases ssl <;> cases ka <;>
    by_cases h1 : R_FAILED (t.openContext HTTPC_RequestMethod.GET url default_proxy) <;>
    by_cases h2 : R_FAILED t.setSSLOpt <;>
    by_cases h3 : R_FAILED (t.addRequestHeaderField "User-Agent" CTRQ_USER_AGENT) <;>
    by_cases h4 : R_FAILED (add_headers_go t (headers.getD [])).1 <;>
    by_cases h5 : R_FAILED (t.setKeepAlive false) <;>
    by_cases h6 : R_FAILED (t.setKeepAlive true) <;>
    by_cases h7 : R_FAILED (t.addRequestHeaderField "Connection" "Keep-Alive") <;>
    simp [runSteps, runSteps_append, runSteps_headers, h1, h2, h3, h4, h5, h6, h7]

theorem runSteps_ok (res : response) (steps : List SetupStep)
    (h : (runSteps res steps).1 = true) :
    runSteps res steps = (true, res, steps.map (fun s => s.2.1)) := by
  induction steps with
  | nil => simp [runSteps]
  | cons s rest ih =>
    by_cases hf : R_FAILED s.2.2
    · simp [runSteps, hf] at h
    · simp only [runSteps, hf, Bool.false_eq_true, if_false] at h ⊢
      simp [ih h]

theorem runSteps_trace_mem (res : response) (steps : List SetupStep)
    (c : TransportCall) (h : c ∈ (runSteps res steps).2.2) :
    c ∈ steps.map (fun s => s.2.1) := by
  induction steps with
  | nil => simp [runSteps] at h
  | cons s rest ih =>
    by_cases hf : R_FAILED s.2.2
    · simp [runSteps, hf] at h
      simp [h]
    · simp only [runSteps, hf, Bool.false_eq_true, if_false, List.mem_cons] at h
      rcases h with h | h
      · simp [h]
      · simp [ih h]

theorem runSteps_first_fail (res : response) (steps : List SetupStep) (n : Nat)
    (hn : n < steps.length)
    (hpre : ∀ i, i < n → R_FAILED (steps.getD i dummyStep).2.2 = false)
    (hf : R_FAILED (steps.getD n dummyStep).2.2 = true) :
    runSteps res steps =
      (false,
        { res with
          failure := (steps.getD n dummyStep).1
          result := (steps.getD n dummyStep).2.2 },
        (steps.take (n + 1)).map (fun s => s.2.1)) := by
  induction steps generalizing n with
  | nil => simp at hn
  | cons s rest ih =>
    cases n with
    | zero =>
      simp only [List.getD_cons_zero] at hf
      simp [runSteps, hf]
    | succ m =>
      have hs : R_FAILED s.2.2 = false := by
        have := hpre 0 (Nat.succ_pos m)
        simpa using this
      simp only [List.getD_cons_succ] at hf
      have hm : m < rest.length := by simpa using hn
      have hpre2 : ∀ i, i < m → R_FAILED (rest.getD i dummyStep).2.2 = false := by
        intro i hi
        have := hpre (i + 1) (Nat.succ_lt_succ hi)
        simpa using this
      simp only [runSteps, hs, Bool.false_eq_true, if_false, ih m hm hpre2 hf]
      simp [List.take_succ_cons]

/-- Every transport call a preparation step can make is one of the six
shapes of the fixed order; in particular none is `beginRequest` or
`getResponseStatusCode`. -/
theorem setupSteps_map_mem (t : Transport) (url : String)
    (headers : Option (List (String × String))) (p : Int) (ssl ka : Bool)
    (c : TransportCall)
    (h : c ∈ (setupSteps t url headers p ssl ka).map (fun s => s.2.1)) :
    c = TransportCall.openContext HTTPC_RequestMethod.GET url p ∨
    c = TransportCall.setSSLOpt ∨
    c = TransportCall.addRequestHeaderField "User-Agent" CTRQ_USER_AGENT ∨
    (∃ a b, (a, b) ∈ headers.getD [] ∧
      c = TransportCall.addRequestHeaderField a b) ∨
    c = TransportCall.setKeepAlive ka ∨
    (ka = true ∧
      c = TransportCall.addRequestHeaderField "Connection" "Keep-Alive") := by
  cases ssl <;> cases ka <;> simp [setupSteps, eq_comm] at h <;> aesop

/-- Every call in `add_ascii_post_params`' trace is an `addPostDataAscii`. -/
theorem add_ascii_post_params_trace_shape (t : Transport) (res : response)
    (params : List (String × String)) (c : TransportCall)
    (h : c ∈ (add_ascii_post_params t res params).2.2) :
    ∃ k v, c = TransportCall.addPostDataAscii k v := by
  induction params generalizing res with
  | nil => simp [add_ascii_post_params] at h
  | cons kv rest ih =>
    by_cases hf : R_FAILED (t.addPostDataAscii kv.1 kv.2)
    · simp [add_ascii_post_params, add_ascii_post_param, hf] at h
      exact ⟨kv.1, kv.2, h⟩
    · simp [add_ascii_post_params, add_ascii_post_param, hf] at h
      rcases h with h | h
      · exact ⟨kv.1, kv.2, h⟩
      · exact ih _ h

/-- `add_ascii_post_params` on a parameter sequence whose first failing
entry is `(kf, vf)`: it stops there, records `ADD_ASCII_POST_PARAM` and
the failing result, and the later entries are never attached. -/
theorem add_ascii_post_params_first_fail (t : Transport) (res : response)
    (pre : List (String × String)) (kf vf : String)
    (rest : List (String × String))
    (hpre : ∀ kv ∈ pre, R_FAILED (t.addPostDataAscii kv.1 kv.2) = false)
    (hf : R_FAILED (t.addPostDataAscii kf vf) = true) :
    add_ascii_post_params t res (pre ++ (kf, vf) :: rest) =
      (false,
        { res with
          result := t.addPostDataAscii kf vf
          failure := httpc_failure.ADD_ASCII_POST_PARAM },
        pre.map (fun kv => TransportCall.addPostDataAscii kv.1 kv.2) ++
          [TransportCall.addPostDataAscii kf vf]) := by
  induction pre generalizing res with
  | nil => simp [add_ascii_post_params, add_ascii_post_param, hf]
  | cons kv pre2 ih =>
    have h1 : R_FAILED (t.addPostDataAscii kv.1 kv.2) = false :=
      hpre kv (List.mem_cons_self kv pre2)
    have hpre2 : ∀ w ∈ pre2, R_FAILED (t.addPostDataAscii w.1 w.2) = false :=
      fun w hw => hpre w (List.mem_cons_of_mem kv hw)
    simp [add_ascii_post_params, add_ascii_post_param, h1, ih _ hpre2]

/-! Concrete transports used as witnesses and counterexample inputs. -/

/-- A transport that succeeds at every step: status 200, two body bytes. -/
def okT : Transport where
  openContext := fun _ _ _ => 0
  setSSLOpt := 0
  addRequestHeaderField := fun _ _ => 0
  setKeepAlive := fun _ => 0
  beginRequest := 0
  getResponseStatusCode := (0, 200)
  addPostDataRaw := fun _ _ => 0
  addPostDataAscii := fun _ _ => 0
  download := [(0, [104, 105])]
  getResponseHeader := fun _ => (0, [104, 105])

/-- All-success transport whose exchange completes with HTTP status 404. -/
def t404 : Transport := { okT with getResponseStatusCode := (0, 404) }

/-- Transport whose `httpcSetKeepAlive` fails. -/
def kaFailT : Transport := { okT with setKeepAlive := fun _ => -1 }

/-- Transport that fails attaching the ASCII form field named "b". -/
def asciiFailT : Transport :=
  { okT with addPostDataAscii := fun f _ => if f = "b" then -1 else 0 }

/-- All-success transport whose body bytes contain an embedded NUL. -/
def nullT : Transport := { okT with download := [(0, [104, 0, 105])] }

/-- Transport whose single download chunk reports a transport failure. -/
def dlFailT : Transport := { okT with download := [(-5, [1, 2])] }

/-- C1: the claim says every orchestration opens the request context for
the method the public operation was invoked with (a POST opens a POST
context). The code contradicts this: `setup_context` ignores its `method`
parameter and always opens the context with `HTTPC_METHOD_GET`, so the
POST orchestration's first transport call opens a GET context, and so does
DELETE's. -/
theorem post_opens_context_with_GET :
    ((post_params okT "http://example.test/" [("a", "1")] none 0 true true).2).head? =
      some (TransportCall.openContext HTTPC_RequestMethod.GET "http://example.test/" 0) ∧
    ((post_params okT "http://example.test/" [("a", "1")] none 0 true true).2).head? ≠
      some (TransportCall.openContext HTTPC_RequestMethod.POST "http://example.test/" 0) ∧
    ((deleet okT "http://example.test/" none 0 true true).2).head? =
      some (TransportCall.openContext HTTPC_RequestMethod.GET "http://example.test/" 0) := by
  decide

/-- C2: the claim says `close_context` is idempotent and the destructor
releases the context only if not already released. The code contradicts
this: `close_context` never sets `http_context_closed`, so a second
`close_context` call and a destructor run after an explicit close each
invoke `httpcCloseContext` again. -/
theorem close_context_not_idempotent :
    (close_context freshResponse).2 = [TransportCall.closeContext] ∧
    (close_context (close_context freshResponse).1).2 = [TransportCall.closeContext] ∧
    (destruct_response (close_context freshResponse).1).2 = [TransportCall.closeContext] := by
  decide

/-- C3: the claim says that after `close_context()` the accessors return
empty values and never invoke the transport. The code contradicts this:
since `close_context` never sets `http_context_closed`, `get_header`,
`get_body` and `get_body_string` after a close still call the transport
and return its (non-empty) data. -/
theorem accessors_after_close_still_call_transport :
    (get_header okT (close_context freshResponse).1 "X-Test").2.2 =
      [TransportCall.getResponseHeader "X-Test"] ∧
    (get_header okT (close_context freshResponse).1 "X-Test").1 = [104, 105] ∧
    (get_body okT (close_context freshResponse).1).2.2 =
      [TransportCall.downloadData] ∧
    (get_body okT (close_context freshResponse).1).1 = [104, 105] ∧
    (get_body_string okT (close_context freshResponse).1).2.2 =
      [TransportCall.downloadData] ∧
    (get_body_string okT (close_context freshResponse).1).1 = [104, 105] := by
  decide

/-- C6: `get_body` is idempotent: after one call, any further call returns
the bit-identical byte buffer, leaves the response unchanged, and performs
no transport call at all (so the streaming download runs during at most
one `get_body` call). -/
theorem get_body_idempotent (t : Transport) (res : response) :
    get_body t (get_body t res).2.1 =
      ((get_body t res).1, (get_body t res).2.1, ([] : List TransportCall)) := by
  by_cases h : (res.body_populated || res.http_context_closed) = true
  · simp [get_body, h]
  · simp [get_body, h]

/-- C7: on any response whose context is open and whose text cache is not
flagged populated (true of every reachable response, since the source
never sets either flag), `get_body_string` returns exactly the bytes of
`get_body` reinterpreted as text, byte for byte and with the same length,
embedded NUL bytes included. -/
theorem get_body_string_consistent (t : Transport) (res : response)
    (hcl : res.http_context_closed = false)
    (hsp : res.body_string_populated = false) :
    (get_body_string t res).1 = (get_body t res).1 ∧
    (get_body_string t res).1.length = (get_body t res).1.length := by
  simp [get_body_string, hcl, hsp]

/-- Witness for C7, on a body with an embedded NUL byte. -/
theorem get_body_string_consistent_witness :
    (get_body nullT freshResponse).1 = [104, 0, 105] ∧
    ((get_body_string nullT freshResponse).1 = (get_body nullT freshResponse).1 ∧
      (get_body_string nullT freshResponse).1.length =
        (get_body nullT freshResponse).1.length) :=
  ⟨by decide, get_body_string_consistent nullT freshResponse rfl rfl⟩

/-- C10: on a response whose context is open and whose body is not yet
populated, `get_body` overwrites the stored `result` with the download
loop's final chunk result and marks the body populated, regardless of
whether that final result is a failure; `has_failed` afterwards therefore
reports the download outcome, not the earlier request outcome. -/
theorem get_body_overwrites_result (t : Transport) (res : response)
    (hp : res.body_populated = false) (hc : res.http_context_closed = false) :
    (get_body t res).2.1.result = (downloadLoop t.download res.body).1 ∧
    (get_body t res).2.1.body_populated = true ∧
    has_failed (get_body t res).2.1 = R_FAILED (downloadLoop t.download res.body).1 := by
  simp [get_body, hp, hc, has_failed]

/-- Witness for C10: a response that had succeeded so far (result 0) but
whose download fails with result -5 reports failure after `get_body`. -/
theorem get_body_overwrites_result_witness :
    (freshResponse.result = 0 ∧
      has_failed freshResponse = false ∧
      (get_body dlFailT freshResponse).2.1.result = -5 ∧
      has_failed (get_body dlFailT freshResponse).2.1 = true) ∧
    ((get_body dlFailT freshResponse).2.1.result =
        (downloadLoop dlFailT.download freshResponse.body).1 ∧
      (get_body dlFailT freshResponse).2.1.body_populated = true ∧
      has_failed (get_body dlFailT freshResponse).2.1 =
        R_FAILED (downloadLoop dlFailT.download freshResponse.body).1) :=
  ⟨by decide, get_body_overwrites_result dlFailT freshResponse rfl rfl⟩

/-- C4: if step `n` of the fixed preparation order (context-open;
disable-TLS-verify if requested; set-user-agent; one set-custom-header per
caller header; set-keep-alive; set-keep-alive-header if keep-alive) is the
first step to fail, then `setup_context` returns the response with
`failure` equal to step `n`'s name and `result` the failing outcome, and
the calls performed are exactly steps 0..n — no step after `n` executes. -/
theorem setup_context_first_failure (t : Transport) (res : response)
    (url : String) (method : HTTPC_RequestMethod)
    (headers : Option (List (String × String))) (p : Int) (ssl ka : Bool)
    (n : Nat) (hn : n < (setupSteps t url headers p ssl ka).length)
    (hpre : ∀ i, i < n →
      R_FAILED ((setupSteps t url headers p ssl ka).getD i dummyStep).2.2 = false)
    (hf : R_FAILED ((setupSteps t url headers p ssl ka).getD n dummyStep).2.2 = true) :
    setup_context t res url method headers p ssl ka =
      (false,
        { res with
          failure := ((setupSteps t url headers p ssl ka).getD n dummyStep).1
          result := ((setupSteps t url headers p ssl ka).getD n dummyStep).2.2 },
        ((setupSteps t url headers p ssl ka).take (n + 1)).map (fun s => s.2.1)) := by
  rw [setup_context_eq_runSteps]
  exact runSteps_first_fail res _ n hn hpre hf

/-- Witness for C4: a transport whose `httpcSetKeepAlive` fails; with one
custom header and TLS-verify disabling requested, set-keep-alive is step 4
of the order and preparation stops there. -/
theorem setup_context_first_failure_witness :
    4 < (setupSteps kaFailT "http://example.test/" (some [("X", "1")]) 0 true true).length ∧
    setup_context kaFailT freshResponse "http://example.test/"
        HTTPC_RequestMethod.POST (some [("X", "1")]) 0 true true =
      (false,
        { freshResponse with
          failure := ((setupSteps kaFailT "http://example.test/"
            (some [("X", "1")]) 0 true true).getD 4 dummyStep).1
          result := ((setupSteps kaFailT "http://example.test/"
            (some [("X", "1")]) 0 true true).getD 4 dummyStep).2.2 },
        ((setupSteps kaFailT "http://example.test/"
          (some [("X", "1")]) 0 true true).take (4 + 1)).map (fun s => s.2.1)) :=
  ⟨by decide, setup_context_first_failure kaFailT freshResponse "http://example.test/"
    HTTPC_RequestMethod.POST (some [("X", "1")]) 0 true true 4
    (by decide) (by decide) (by decide)⟩

/-- C5: a POST or a PUT with form parameters where attaching parameter
`(kf, vf)` is the first to fail returns a response with `has_failed` true,
`failure` equal to attach-form-param and `status` 0, and the Request
Executor's calls (`beginRequest`, `getResponseStatusCode`) never appear in
the trace. The setup-success hypothesis is stated once for the POST
preparation; it carries over to the PUT preparation because
`setup_context` does not depend on its method argument. -/
theorem form_params_attach_failure (t : Transport) (url : String)
    (pre : List (String × String)) (kf vf : String)
    (rest : List (String × String))
    (headers : Option (List (String × String))) (p : Int) (ssl ka : Bool)
    (hsetup : (setup_context t freshResponse url HTTPC_RequestMethod.POST
      headers p ssl ka).1 = true)
    (hpre : ∀ kv ∈ pre, R_FAILED (t.addPostDataAscii kv.1 kv.2) = false)
    (hf : R_FAILED (t.addPostDataAscii kf vf) = true) :
    (has_failed (post_params t url (pre ++ (kf, vf) :: rest) headers p ssl ka).1 = true ∧
      (post_params t url (pre ++ (kf, vf) :: rest) headers p ssl ka).1.failure =
        httpc_failure.ADD_ASCII_POST_PARAM ∧
      (post_params t url (pre ++ (kf, vf) :: rest) headers p ssl ka).1.status = 0 ∧
      TransportCall.beginRequest ∉
        (post_params t url (pre ++ (kf, vf) :: rest) headers p ssl ka).2 ∧
      TransportCall.getResponseStatusCode ∉
        (post_params t url (pre ++ (kf, vf) :: rest) headers p ssl ka).2) ∧
    (has_failed (put_params t url (pre ++ (kf, vf) :: rest) headers p ssl ka).1 = true ∧
      (put_params t url (pre ++ (kf, vf) :: rest) headers p ssl ka).1.failure =
        httpc_failure.ADD_ASCII_POST_PARAM ∧
      (put_params t url (pre ++ (kf, vf) :: rest) headers p ssl ka).1.status = 0 ∧
      TransportCall.beginRequest ∉
        (put_params t url (pre ++ (kf, vf) :: rest) headers p ssl ka).2 ∧
      TransportCall.getResponseStatusCode ∉
        (put_params t url (pre ++ (kf, vf) :: rest) headers p ssl ka).2) := by
  have heqPOST := setup_context_eq_runSteps t freshResponse url
    HTTPC_RequestMethod.POST headers p ssl ka
  have heqPUT := setup_context_eq_runSteps t freshResponse url
    HTTPC_RequestMethod.PUT headers p ssl ka
  rw [heqPOST] at hsetup
  have hok := runSteps_ok freshResponse _ hsetup
  have hscPOST : setup_context t freshResponse url HTTPC_RequestMethod.POST
      headers p ssl ka =
      (true, freshResponse,
        (setupSteps t url headers p ssl ka).map (fun s => s.2.1)) := by
    rw [heqPOST, hok]
  have hscPUT : setup_context t freshResponse url HTTPC_RequestMethod.PUT
      headers p ssl ka =
      (true, freshResponse,
        (setupSteps t url headers p ssl ka).map (fun s => s.2.1)) := by
    rw [heqPUT, hok]
  have hadd := add_ascii_post_params_first_fail t freshResponse pre kf vf rest hpre hf
  constructor
  · simp only [post_params, hscPOST, hadd]
    simp [has_failed, hf, freshResponse, setupSteps]
  · simp only [put_params, hscPUT, hadd]
    simp [has_failed, hf, freshResponse, setupSteps]

/-- Witness for C5: form parameters a=1 then b=2 on a transport that fails
attaching field "b", via both the POST and the PUT orchestrators. -/
theorem form_params_attach_failure_witness :
    (∀ kv ∈ [("a", "1")], R_FAILED (asciiFailT.addPostDataAscii kv.1 kv.2) = false) ∧
    ((has_failed (post_params asciiFailT "http://example.test/"
        ([("a", "1")] ++ ("b", "2") :: []) none 0 true true).1 = true ∧
      (post_params asciiFailT "http://example.test/"
        ([("a", "1")] ++ ("b", "2") :: []) none 0 true true).1.failure =
        httpc_failure.ADD_ASCII_POST_PARAM ∧
      (post_params asciiFailT "http://example.test/"
        ([("a", "1")] ++ ("b", "2") :: []) none 0 true true).1.status = 0 ∧
      TransportCall.beginRequest ∉
        (post_params asciiFailT "http://example.test/"
          ([("a", "1")] ++ ("b", "2") :: []) none 0 true true).2 ∧
      TransportCall.getResponseStatusCode ∉
        (post_params asciiFailT "http://example.test/"
          ([("a", "1")] ++ ("b", "2") :: []) none 0 true true).2) ∧
    (has_failed (put_params asciiFailT "http://example.test/"
        ([("a", "1")] ++ ("b", "2") :: []) none 0 true true).1 = true ∧
      (put_params asciiFailT "http://example.test/"
        ([("a", "1")] ++ ("b", "2") :: []) none 0 true true).1.failure =
        httpc_failure.ADD_ASCII_POST_PARAM ∧
      (put_params asciiFailT "http://example.test/"
        ([("a", "1")] ++ ("b", "2") :: []) none 0 true true).1.status = 0 ∧
      TransportCall.beginRequest ∉
        (put_params asciiFailT "http://example.test/"
          ([("a", "1")] ++ ("b", "2") :: []) none 0 true true).2 ∧
      TransportCall.getResponseStatusCode ∉
        (put_params asciiFailT "http://example.test/"
          ([("a", "1")] ++ ("b", "2") :: []) none 0 true true).2)) :=
  ⟨by decide, form_params_attach_failure asciiFailT "http://example.test/"
    [("a", "1")] "b" "2" [] none 0 true true (by decide) (by decide) (by decide)⟩

/-- C8: if the caller did not themselves supply a literal
`Connection: Keep-Alive` header, then preparing with keep-alive disabled
never makes the transport call that adds that header; and on a successful
preparation with keep-alive enabled, the trace ends with the set-keep-alive
call immediately followed by the `Connection: Keep-Alive` header call (the
header is added after the keep-alive flag is set). -/
theorem keep_alive_header_step (t : Transport) (res : response) (url : String)
    (method : HTTPC_RequestMethod) (headers : Option (List (String × String)))
    (p : Int) (ssl : Bool)
    (hh : ("Connection", "Keep-Alive") ∉ headers.getD []) :
    TransportCall.addRequestHeaderField "Connection" "Keep-Alive" ∉
      (setup_context t res url method headers p ssl false).2.2 ∧
    ((setup_context t res url method headers p ssl true).1 = true →
      ∃ pre, (setup_context t res url method headers p ssl true).2.2 =
        pre ++ [TransportCall.setKeepAlive true,
          TransportCall.addRequestHeaderField "Connection" "Keep-Alive"]) := by
  constructor
  · intro hmem
    rw [setup_context_eq_runSteps] at hmem
    have h2 := runSteps_trace_mem res _ _ hmem
    rcases setupSteps_map_mem t url headers p ssl false _ h2 with
      h | h | h | ⟨a, b, hab, h⟩ | h | ⟨hka, h⟩ <;> simp_all [CTRQ_USER_AGENT]
  · intro hok
    rw [setup_context_eq_runSteps] at hok ⊢
    rw [runSteps_ok res _ hok]
    refine ⟨[TransportCall.openContext HTTPC_RequestMethod.GET url p] ++
      (if ssl then [TransportCall.setSSLOpt] else []) ++
      [TransportCall.addRequestHeaderField "User-Agent" CTRQ_USER_AGENT] ++
      (headers.getD []).map (fun kv =>
        TransportCall.addRequestHeaderField kv.1 kv.2), ?_⟩
    cases ssl <;> simp [setupSteps]

/-- Witness for C8, on the all-success transport with no caller headers. -/
theorem keep_alive_header_step_witness :
    TransportCall.addRequestHeaderField "Connection" "Keep-Alive" ∉
      (setup_context okT freshResponse "http://example.test/"
        HTTPC_RequestMethod.GET none 0 true false).2.2 ∧
    ((setup_context okT freshResponse "http://example.test/"
        HTTPC_RequestMethod.GET none 0 true true).1 = true →
      ∃ pre, (setup_context okT freshResponse "http://example.test/"
          HTTPC_RequestMethod.GET none 0 true true).2.2 =
        pre ++ [TransportCall.setKeepAlive true,
          TransportCall.addRequestHeaderField "Connection" "Keep-Alive"]) :=
  keep_alive_header_step okT freshResponse "http://example.test/"
    HTTPC_RequestMethod.GET none 0 true (by decide)

/-- C9: `has_failed` is a function of the stored result alone (responses
agreeing on `result` agree on `has_failed`), it holds exactly when that
result is a failure code (negative), and a GET whose preparation and
execution steps all succeed is not failed regardless of the HTTP status
the transport reports — the status is stored as-is. -/
theorem has_failed_iff_failure_result (t : Transport) (url : String)
    (headers : Option (List (String × String))) (p : Int) (ssl ka : Bool)
    (hsetup : (setup_context t freshResponse url HTTPC_RequestMethod.GET
      headers p ssl ka).1 = true)
    (hbr : R_FAILED t.beginRequest = false)
    (hst : R_FAILED t.getResponseStatusCode.1 = false) :
    (∀ r1 r2 : response, r1.result = r2.result → has_failed r1 = has_failed r2) ∧
    (∀ r : response, has_failed r = true ↔ r.result < 0) ∧
    has_failed (get t url headers p ssl ka).1 = false ∧
    (get t url headers p ssl ka).1.status = t.getResponseStatusCode.2 := by
  have heq := setup_context_eq_runSteps t freshResponse url
    HTTPC_RequestMethod.GET headers p ssl ka
  rw [heq] at hsetup
  have hok := runSteps_ok freshResponse _ hsetup
  have hsc : setup_context t freshResponse url HTTPC_RequestMethod.GET
      headers p ssl ka =
      (true, freshResponse,
        (setupSteps t url headers p ssl ka).map (fun s => s.2.1)) := by
    rw [heq, hok]
  have hz : R_FAILED 0 = false := by decide
  refine ⟨fun r1 r2 h => by simp [has_failed, h],
    fun r => by simp [has_failed, R_FAILED], ?_, ?_⟩ <;>
  · simp only [get, hsc]
    simp [perform_request, hbr, hst, has_failed, hz, freshResponse]

/-- Witness for C9: an all-success exchange returning HTTP status 404 is
not reported as failed. -/
theorem has_failed_iff_failure_result_witness :
    t404.getResponseStatusCode.2 = 404 ∧
    ((∀ r1 r2 : response, r1.result = r2.result → has_failed r1 = has_failed r2) ∧
      (∀ r : response, has_failed r = true ↔ r.result < 0) ∧
      has_failed (get t404 "http://example.test/" none 0 true true).1 = false ∧
      (get t404 "http://example.test/" none 0 true true).1.status =
        t404.getResponseStatusCode.2) :=
  ⟨rfl, has_failed_iff_failure_result t404 "http://example.test/" none 0 true true
    (by decide) (by decide) (by decide)⟩

end Ctrq
